import Mathlib

/-!
Shallow embedding of the Asciidoc dialect of the gomarkdoc format package
(src/format/asciidoc.go) and of the Type-node template (src/unnamed/part_000),
together with proofs of the specification claims about them.

Go functions returning a pair of a string and an error are embedded as
follows: functions whose error component is the nil constant on every path
become plain String-valued functions; the header family, whose error can be
non-nil, returns Except String String; ListEntry, which can panic through
strings.Repeat on a negative count, returns Option String (none models the
panic).  Go int becomes Int.
-/

namespace Format

/-- Modelled from the spec: the package-level helper `escape` is not under
src/ (only its caller Asciidoc.Header and the method Asciidoc.Escape are).
Per the spec it is a pure total function neutralizing dialect-reserved
characters; we model it as preceding each reserved character with a
backslash. -/
def isReserved (c : Char) : Bool :=
  c = '\\' || c = '*' || c = '_' || c = '[' || c = ']' || c = '<' ||
  c = '>' || c = '#' || c = '|' || c = '!' || c = '+' || c = '-' || c = '.'

/-- Modelled from the spec: escaping inserts a backslash before every
reserved character and leaves all other characters unchanged. -/
def escapeList : List Char → List Char
  | [] => []
  | c :: cs => if isReserved c then '\\' :: c :: escapeList cs
               else c :: escapeList cs

/-- Modelled from the spec: the Escaper component (see `escapeList`). -/
def escape (text : String) : String :=
  String.mk (escapeList text.data)

/-- Modelled from the spec: markup-marker characters that the `plainText`
helper (not under src/) strips from heading text to obtain the plain
display text. -/
def isMarkupMarker (c : Char) : Bool :=
  c = '*' || c = '_' || c = '[' || c = ']' || c = '<' || c = '>' ||
  c = '#' || c = '|'

/-- Modelled from the spec: `plainText` strips embedded markup from heading
text.  A backslash-escaped character displays as the character itself;
bare markup-marker characters are removed. -/
def plainTextList : List Char → List Char
  | [] => []
  | '\\' :: c :: cs => c :: plainTextList cs
  | c :: cs => if isMarkupMarker c then plainTextList cs
               else c :: plainTextList cs

/-- Modelled from the spec: strip embedded markup to plain display text. -/
def plainText (text : String) : String :=
  String.mk (plainTextList text.data)

/-- Per-character lowercasing, embedding strings.ToLower for the character
ranges that occur here. -/
def toLowerList (cs : List Char) : List Char :=
  cs.map Char.toLower

/-- Embedding of strings.TrimSpace: drop leading and trailing whitespace. -/
def trimSpaceList (cs : List Char) : List Char :=
  ((cs.dropWhile Char.isWhitespace).reverse.dropWhile Char.isWhitespace).reverse

/-- Modelled from the spec: the pattern of gfmWhitespaceRegex is not under
src/; per the spec, internal whitespace runs collapse into a single
separator, here the dash used by genref. -/
def collapseWsList : List Char → Bool → List Char
  | [], _ => []
  | c :: cs, inRun =>
    if c.isWhitespace then
      if inRun then collapseWsList cs true
      else '-' :: collapseWsList cs true
    else c :: collapseWsList cs false

/-- Modelled from the spec: the pattern of gfmRemoveRegex is not under src/;
per the spec, characters illegal in an identifier are removed.  We keep
letters, digits, the dash separator and the underscore. -/
def isRefLegal (c : Char) : Bool :=
  c.isAlpha || c.isDigit || c = '-' || c = '_'

/-- Embedding of Asciidoc.genref (src/format/asciidoc.go lines 146-154):
plainText, then ToLower, then TrimSpace, then the whitespace regex
replacement with a dash, then removal of illegal characters. -/
def genref (text : String) : String :=
  String.mk
    (((collapseWsList
        (trimSpaceList (toLowerList (plainText text).data)) false).filter
        isRefLegal))

/-- The error message of Asciidoc.header for a level below 1. -/
def invalidLevelMsg : String := "format: header level cannot be less than 1"

/-- Embedding of Asciidoc.header (src/format/asciidoc.go lines 124-144):
levels below 1 error; levels 1-5 emit the matching marker; every other
level falls to the default branch, which emits the level-6 marker. -/
def header (level : Int) (text : String) : Except String String :=
  if level < 1 then .error invalidLevelMsg
  else if level = 1 then
    .ok ("[[" ++ genref text ++ "]]\n= " ++ text ++ "\n\n")
  else if level = 2 then
    .ok ("[[" ++ genref text ++ "]]\n== " ++ text ++ "\n\n")
  else if level = 3 then
    .ok ("[[" ++ genref text ++ "]]\n=== " ++ text ++ "\n\n")
  else if level = 4 then
    .ok ("[[" ++ genref text ++ "]]\n==== " ++ text ++ "\n\n")
  else if level = 5 then
    .ok ("[[" ++ genref text ++ "]]\n===== " ++ text ++ "\n\n")
  else
    .ok ("[[" ++ genref text ++ "]]\n====== " ++ text ++ "\n\n")

/-- Embedding of Asciidoc.Header: escapes the text and delegates to header. -/
def Header (level : Int) (text : String) : Except String String :=
  header level (escape text)

/-- Embedding of Asciidoc.RawHeader: delegates to header without escaping. -/
def RawHeader (level : Int) (text : String) : Except String String :=
  header level text

/-- Embedding of Asciidoc.LocalHref (error component always nil). -/
def LocalHref (headerText : String) : String :=
  "xref:" ++ genref headerText ++ "[" ++ headerText ++ "]"

/-- Modelled from the spec: lang.Location is not under src/; it identifies
the originating source position and Asciidoc.CodeHref ignores it, so it is
embedded as a fieldless structure. -/
structure Location where

/-- Embedding of Asciidoc.CodeHref: always the empty string, nil error. -/
def CodeHref (_loc : Location) : String := ""

/-- Embedding of Asciidoc.Bold (error component always nil). -/
def Bold (text : String) : String :=
  if text = "" then "" else "*" ++ text ++ "*"

/-- Embedding of Asciidoc.CodeBlock (error component always nil).  The Go
source builds the result with a raw string literal, so the two-character
sequences backslash-n in it are literal characters, not newlines; the
embedding reproduces them as such. -/
def CodeBlock (language code : String) : String :=
  if code = "" then ""
  else
    let language := if language = "" then "go" else language
    "[source," ++ language ++ "]\\n----\\n" ++ code ++ "\\n----"

/-- Embedding of Asciidoc.Link (error component always nil). -/
def Link (text href : String) : String :=
  if text = "" then ""
  else if href = "" then text
  else href ++ "[" ++ text ++ "]"

/-- Embedding of strings.Repeat: panics (none) on a negative count. -/
def stringsRepeat (s : String) (count : Int) : Option String :=
  if count < 0 then none
  else some (String.join (List.replicate count.toNat s))

/-- Embedding of Asciidoc.ListEntry; none models the panic of
strings.Repeat on a negative depth. -/
def ListEntry (depth : Int) (text : String) : Option String :=
  if text = "" then some ""
  else
    match stringsRepeat "**" depth with
    | none => none
    | some p => some (p ++ " " ++ text ++ "\n")

/-- Embedding of Asciidoc.Accordion (error component always nil): an empty
title defaults to Description. -/
def Accordion (title body : String) : String :=
  let title := if title = "" then "Description" else title
  "." ++ title ++ "\n[%collapsible]\n====\n" ++ body ++ "\n====\n"

/-- Embedding of Asciidoc.AccordionHeader (error component always nil).
The format string of the source is ".%s\nn[%%collapsible]\n====\n": after
the first newline there is a literal letter n before the bracket. -/
def AccordionHeader (title : String) : String :=
  "." ++ title ++ "\nn[%collapsible]\n====\n"

/-- Embedding of Asciidoc.AccordionTerminator (error component always nil). -/
def AccordionTerminator : String := "\n====\n"

/-- Embedding of Asciidoc.Paragraph (error component always nil): appends a
blank line, with no empty-input check. -/
def Paragraph (text : String) : String :=
  text ++ "\n\n"

/-- Embedding of Asciidoc.Escape: delegates to the package-level escape. -/
def Escape (text : String) : String :=
  escape text

/-- A Type documentation node as consumed by the type template
(src/unnamed/part_000): heading Level, display Name, source Location, Doc
text, Decl source text, and the ordered child collections Consts, Vars,
Examples, Funcs and Methods.  The child element types are opaque because
the value, example and func sub-templates are not under src/. -/
structure TypeNode (V E F : Type) where
  Level : Int
  Name : String
  Location : Location
  Doc : String
  Decl : String
  Consts : List V
  Vars : List V
  Examples : List E
  Funcs : List F
  Methods : List F

/-- Embedding of the type template (src/unnamed/part_000) instantiated with
the Asciidoc dialect.  The template pipes codeHref of the Location into
link applied to the escaped Name, formats the result with the pattern
type-space-percent-s, pipes that into rawHeader at the node Level (an
error there aborts the render), then emits the Doc, the Decl as a go code
block, and the Consts, Vars, Examples, Funcs and Methods collections, each
in original order.  Modelled from the spec: the doc, value, example and
func sub-templates are not under src/, so they are abstracted as renderer
parameters applied to each child. -/
def renderType {V E F : Type} (renderDoc : String → String)
    (renderValue : V → String) (renderExample : E → String)
    (renderFunc : F → String) (n : TypeNode V E F) :
    Except String String :=
  match RawHeader n.Level ("type " ++ Link (escape n.Name) (CodeHref n.Location)) with
  | .error e => .error e
  | .ok hdr =>
    .ok (hdr ++ renderDoc n.Doc ++ CodeBlock "go" n.Decl ++
      String.join (n.Consts.map renderValue) ++
      String.join (n.Vars.map renderValue) ++
      String.join (n.Examples.map renderExample) ++
      String.join (n.Funcs.map renderFunc) ++
      String.join (n.Methods.map renderFunc))

/-- A concrete Type node exercising the template embedding: two Funcs and
empty Consts, Vars, Examples and Methods. -/
def typeNodeSample : TypeNode String String String :=
  ⟨2, "T", ⟨⟩, "d", "x := 1", [], [], [], ["F1", "F2"], []⟩

end Format

namespace Format

/-! ### Shared helper lemmas about the header family -/

/-- For a level below 1, header returns the InvalidLevel error. -/
theorem header_of_lt_one (l : Int) (t : String) (h : l < 1) :
    header l t = .error invalidLevelMsg := by
  unfold header
  rw [if_pos h]

/-- Every level of at least 6 falls to the default branch of the switch,
which renders the level-6 marker. -/
theorem header_of_ge_six (l : Int) (t : String) (h : 6 ≤ l) :
    header l t = .ok ("[[" ++ genref t ++ "]]\n====== " ++ t ++ "\n\n") := by
  unfold header
  rw [if_neg (by omega), if_neg (by omega), if_neg (by omega), if_neg (by omega),
    if_neg (by omega), if_neg (by omega)]

/-- For every level of at least 1, header succeeds, and its output embeds
the genref anchor between double brackets, followed by a level marker, a
space, the text, and a blank line. -/
theorem header_marker_form (l : Int) (t : String) (h : 1 ≤ l) :
    ∃ m, header l t = .ok ("[[" ++ genref t ++ "]]\n" ++ m ++ " " ++ t ++ "\n\n") := by
  unfold header
  split_ifs with h0 h1 h2 h3 h4 h5
  · omega
  · exact ⟨"=", by simp only [String.append_assoc]; rfl⟩
  · exact ⟨"==", by simp only [String.append_assoc]; rfl⟩
  · exact ⟨"===", by simp only [String.append_assoc]; rfl⟩
  · exact ⟨"====", by simp only [String.append_assoc]; rfl⟩
  · exact ⟨"=====", by simp only [String.append_assoc]; rfl⟩
  · exact ⟨"======", by simp only [String.append_assoc]; rfl⟩

/-! ### The claims -/

/-- Claim C1: the claim states that AccordionHeader of a title, followed by
the body and AccordionTerminator, is byte-for-byte the same string as
Accordion of the title and body.  Evaluating the embedded code at title T
and body b shows that the two differ: the split form carries a stray
letter n between the title line and the collapsible attribute line, which
the combined Accordion does not. -/
theorem c1_accordion_split_differs :
    AccordionHeader "T" ++ "b" ++ AccordionTerminator ≠ Accordion "T" "b" ∧
    AccordionHeader "T" ++ "b" ++ AccordionTerminator =
      ".T\nn[%collapsible]\n====\nb\n====\n" ∧
    Accordion "T" "b" = ".T\n[%collapsible]\n====\nb\n====\n" := by
  decide

/-- Claim C2: for every level below 1, Header and RawHeader return the
InvalidLevel error; for every level of at least 1, including levels above
6, they succeed; and every level of at least 6 renders exactly as level 6,
the maximum depth. -/
theorem c2_header_invalid_level (l : Int) (t : String) :
    (l < 1 → Header l t = .error invalidLevelMsg ∧
      RawHeader l t = .error invalidLevelMsg) ∧
    (1 ≤ l → (∃ s, Header l t = .ok s) ∧ ∃ s, RawHeader l t = .ok s) ∧
    (6 ≤ l → Header l t = Header 6 t ∧ RawHeader l t = RawHeader 6 t) := by
  refine ⟨fun h => ⟨header_of_lt_one _ _ h, header_of_lt_one _ _ h⟩,
    fun h => ⟨?_, ?_⟩, fun h => ⟨?_, ?_⟩⟩
  · obtain ⟨m, hm⟩ := header_marker_form l (escape t) h
    exact ⟨_, hm⟩
  · obtain ⟨m, hm⟩ := header_marker_form l t h
    exact ⟨_, hm⟩
  · show header l (escape t) = header 6 (escape t)
    rw [header_of_ge_six _ _ h, header_of_ge_six _ _ (by omega)]
  · show header l t = header 6 t
    rw [header_of_ge_six _ _ h, header_of_ge_six _ _ (by omega)]

/-- Witness for claim C2 at levels -1, 7 and 9. -/
theorem c2_witness :
    Header (-1) "Ignored" = .error invalidLevelMsg ∧
    (∃ s, Header 7 "t" = .ok s) ∧
    RawHeader 9 "t" = RawHeader 6 "t" :=
  ⟨((c2_header_invalid_level (-1) "Ignored").1 (by decide)).1,
   ((c2_header_invalid_level 7 "t").2.1 (by decide)).1,
   ((c2_header_invalid_level 9 "t").2.2 (by decide)).2⟩

/-- Counterexample to claim C3: Paragraph applied to the empty string does
not return the empty string. -/
theorem c3_counterexample : Paragraph "" ≠ "" := by
  decide

/-- Claim C3 amended: Bold of the empty string is empty and ListEntry of
empty text is empty at every depth, but Paragraph of the empty string is a
pair of newlines, not the empty string, because Paragraph has no
empty-input check. -/
theorem c3_empty_inputs (d : Int) :
    Bold "" = "" ∧ ListEntry d "" = some "" ∧ Paragraph "" = "\n\n" := by
  refine ⟨rfl, ?_, rfl⟩
  unfold ListEntry
  rw [if_pos rfl]

/-- Claim C4: for every non-empty header text and every level of at least
1, the anchor embedded by LocalHref between the xref colon and the opening
bracket is the same string as the anchor embedded by RawHeader between the
double brackets. -/
theorem c4_localhref_matches_rawheader (l : Int) (t : String)
    (_ht : t ≠ "") (hl : 1 ≤ l) :
    ∃ a m, LocalHref t = "xref:" ++ a ++ "[" ++ t ++ "]" ∧
      RawHeader l t = .ok ("[[" ++ a ++ "]]\n" ++ m ++ " " ++ t ++ "\n\n") := by
  obtain ⟨m, hm⟩ := header_marker_form l t hl
  exact ⟨genref t, m, rfl, hm⟩

/-- Witness for claim C4 at level 2 and the text My Function. -/
theorem c4_witness :
    ∃ a m, LocalHref "My Function" = "xref:" ++ a ++ "[" ++ "My Function" ++ "]" ∧
      RawHeader 2 "My Function" =
        .ok ("[[" ++ a ++ "]]\n" ++ m ++ " " ++ "My Function" ++ "\n\n") :=
  c4_localhref_matches_rawheader 2 "My Function" (by decide) (by decide)

/-- Claim C5: for every level and text, Header equals RawHeader applied to
the escaped text, since both delegate to the private header helper. -/
theorem c5_header_escapes_then_delegates (l : Int) (t : String) :
    Header l t = RawHeader l (Escape t) := rfl

/-- Claim C6: rendering a Type node emits, in order, the header at the node
Level combining the (empty, for Asciidoc) code link with the escaped name,
the Doc, the Decl as a go code block, then the Consts, Vars, Examples,
Funcs and Methods collections, each joined in original order; an empty
collection joins to the empty string and so contributes no markup, and for
a node with exactly two Funcs and no Consts, Vars, Examples or Methods the
output is exactly header, doc, declaration code block, then the two
function renders in order. -/
theorem c6_rendertype_order {V E F : Type} (rD : String → String)
    (rV : V → String) (rE : E → String) (rF : F → String)
    (n : TypeNode V E F) (h : 1 ≤ n.Level) :
    ∃ hdr, RawHeader n.Level ("type " ++ Link (escape n.Name) (CodeHref n.Location)) = .ok hdr ∧
      renderType rD rV rE rF n =
        .ok (hdr ++ rD n.Doc ++ CodeBlock "go" n.Decl ++
          String.join (n.Consts.map rV) ++ String.join (n.Vars.map rV) ++
          String.join (n.Examples.map rE) ++ String.join (n.Funcs.map rF) ++
          String.join (n.Methods.map rF)) ∧
      (∀ f1 f2, n.Consts = [] → n.Vars = [] → n.Examples = [] → n.Methods = [] →
        n.Funcs = [f1, f2] →
        renderType rD rV rE rF n =
          .ok (hdr ++ rD n.Doc ++ CodeBlock "go" n.Decl ++ rF f1 ++ rF f2)) := by
  obtain ⟨m, hm⟩ := header_marker_form n.Level
    ("type " ++ Link (escape n.Name) (CodeHref n.Location)) h
  refine ⟨_, hm, ?_, ?_⟩
  · unfold renderType
    rw [show RawHeader n.Level ("type " ++ Link (escape n.Name) (CodeHref n.Location)) = _ from hm]
  · intro f1 f2 hc hv he hme hf
    unfold renderType
    rw [show RawHeader n.Level ("type " ++ Link (escape n.Name) (CodeHref n.Location)) = _ from hm,
      hc, hv, he, hme, hf]
    simp [String.join, String.append_assoc]

/-- Witness for claim C6 at the sample node with two Funcs. -/
theorem c6_witness :
    ∃ hdr, RawHeader 2 ("type " ++ Link (escape "T") (CodeHref ⟨⟩)) = .ok hdr ∧
      renderType id id id id typeNodeSample =
        .ok (hdr ++ id "d" ++ CodeBlock "go" "x := 1" ++
          String.join (List.map id ([] : List String)) ++
          String.join (List.map id ([] : List String)) ++
          String.join (List.map id ([] : List String)) ++
          String.join (List.map id ["F1", "F2"]) ++
          String.join (List.map id ([] : List String))) ∧
      (∀ f1 f2 : String, ([] : List String) = [] → ([] : List String) = [] →
        ([] : List String) = [] → ([] : List String) = [] →
        ["F1", "F2"] = [f1, f2] →
        renderType id id id id typeNodeSample =
          .ok (hdr ++ id "d" ++ CodeBlock "go" "x := 1" ++ id f1 ++ id f2)) :=
  c6_rendertype_order id id id id typeNodeSample (by decide)

/-- Claim C7: CodeBlock returns the empty string for empty code, and at the
failing input of the claim, empty language with the code fmt.Println(1),
it substitutes the default label go and keeps the code verbatim, but the
delimiters around the code are the literal two-character sequences
backslash-n inherited from the raw string literal of the source, not
newlines, so the delimiter lines of a fenced block never materialize. -/
theorem c7_codeblock_eval :
    (∀ lang, CodeBlock lang "" = "") ∧
    CodeBlock "" "fmt.Println(1)" =
      "[source,go]" ++ "\\n" ++ "----" ++ "\\n" ++ "fmt.Println(1)" ++ "\\n" ++ "----" := by
  constructor
  · intro lang
    unfold CodeBlock
    rw [if_pos rfl]
  · decide

/-- Counterexample to claim C8: the heading text of three exclamation marks
normalizes to the empty string, and the header and link operations embed
an empty anchor for it, with no fallback. -/
theorem c8_counterexample :
    genref "!!!" = "" ∧ LocalHref "!!!" = "xref:[!!!]" ∧
    RawHeader 2 "!!!" = .ok "[[]]\n== !!!\n\n" := by
  refine ⟨by decide, by decide, ?_⟩
  rfl

/-- Claim C8 amended: for every heading text whose genref normalization is
the empty string, the header and link operations embed the empty string as
the anchor; genref has no non-empty fallback. -/
theorem c8_empty_anchor (l : Int) (t : String) (hl : 1 ≤ l)
    (h : genref t = "") :
    (∃ m, RawHeader l t = .ok ("[[" ++ "" ++ "]]\n" ++ m ++ " " ++ t ++ "\n\n")) ∧
    LocalHref t = "xref:" ++ "" ++ "[" ++ t ++ "]" := by
  obtain ⟨m, hm⟩ := header_marker_form l t hl
  rw [h] at hm
  refine ⟨⟨m, hm⟩, ?_⟩
  unfold LocalHref
  rw [h]

/-- Witness for the amended claim C8 at level 2 and a text of three
exclamation marks. -/
theorem c8_witness :
    (∃ m, RawHeader 2 "!!!" = .ok ("[[" ++ "" ++ "]]\n" ++ m ++ " " ++ "!!!" ++ "\n\n")) ∧
    LocalHref "!!!" = "xref:" ++ "" ++ "[" ++ "!!!" ++ "]" :=
  c8_empty_anchor 2 "!!!" (by decide) (by decide)

/-- Claim C9: the anchor embedded by Header is genref of the escaped text
while the anchor embedded by LocalHref is genref of the raw text, and the
two coincide exactly when genref of the escaped text equals genref of the
raw text. -/
theorem c9_anchor_escape_condition (l : Int) (t : String) (hl : 1 ≤ l) :
    ∃ a x m, Header l t = .ok ("[[" ++ a ++ "]]\n" ++ m ++ " " ++ escape t ++ "\n\n") ∧
      LocalHref t = "xref:" ++ x ++ "[" ++ t ++ "]" ∧
      a = genref (escape t) ∧ x = genref t ∧
      (a = x ↔ genref (escape t) = genref t) := by
  obtain ⟨m, hm⟩ := header_marker_form l (escape t) hl
  exact ⟨genref (escape t), genref t, m, hm, rfl, rfl, rfl, Iff.rfl⟩

/-- Witness for claim C9 at level 1 and the text abc. -/
theorem c9_witness :
    ∃ a x m, Header 1 "abc" = .ok ("[[" ++ a ++ "]]\n" ++ m ++ " " ++ escape "abc" ++ "\n\n") ∧
      LocalHref "abc" = "xref:" ++ x ++ "[" ++ "abc" ++ "]" ∧
      a = genref (escape "abc") ∧ x = genref "abc" ∧
      (a = x ↔ genref (escape "abc") = genref "abc") :=
  c9_anchor_escape_condition 1 "abc" (by decide)

/-- Claim C10: for every non-empty text, ListEntry panics (none in the
embedding) at every negative depth via strings.Repeat, and returns a value
at every depth of at least 0, so the panic branch is unreachable under the
precondition that the depth is non-negative. -/
theorem c10_listentry_depth (d : Int) (t : String) (ht : t ≠ "") :
    (d < 0 → ListEntry d t = none) ∧
    (0 ≤ d → ∃ s, ListEntry d t = some s) := by
  unfold ListEntry stringsRepeat
  rw [if_neg ht]
  constructor
  · intro h
    rw [if_pos h]
  · intro h
    rw [if_neg (by omega)]
    exact ⟨_, rfl⟩

/-- Witness for claim C10 at depths -1 and 0 with the text x. -/
theorem c10_witness :
    ListEntry (-1) "x" = none ∧ ∃ s, ListEntry 0 "x" = some s :=
  ⟨(c10_listentry_depth (-1) "x" (by decide)).1 (by decide),
   (c10_listentry_depth 0 "x" (by decide)).2 (by decide)⟩

end Format
